import Mathlib

/-!
Verification development for the `temp-server-nodejs` email platform.

The repository contains two parallel implementations of the same API: a
MySQL/`pool.query` one (`src/models/*.js`, `src/services/smtp-service.js`,
the routes in `src/unnamed/part_002`/`part_004`) and a Sequelize one
(`src/unnamed/part_008` … `part_013`), plus an older file-backed one
(`src/index.js`, `src/unnamed/part_005`).  The definitions below are shallow
embeddings of the functions these claims are about: database tables become
association lists, `Date.now()` becomes an explicit `now : Nat` argument
(milliseconds), RSA key generation becomes an explicit `KeyGen` argument,
and the nodemailer transport becomes an explicit outcome argument.
-/

namespace EmailServer

/-! ## Domain configuration store (`src/unnamed/part_010`, `part_011`)

`domain_configs` table rows, as created by `createDomainConfig`
(`part_010` lines 282-342).  The Sequelize `DomainConfig.createForDomain`
(`part_011` lines 162-176, with the `beforeCreate` hook at lines 101-114)
has the same find-then-create structure and the same selector formula. -/

structure DomainCfgRow where
  id : String
  domain_name : String
  active : Bool
  dkim_selector : String
  dkim_public_key : String
  dkim_private_key : String
  dkim_txt_record : String
  spf_record : String
  dkim_verified : Bool
  spf_verified : Bool
  mx_verified : Bool
  deriving Repr, DecidableEq

/-- Output of `crypto.generateKeyPairSync`: the public key as the raw PEM
text (before the wrapper is stripped) and the private key PEM. -/
structure KeyGen where
  rawPublicPem : String
  privateKey : String
  deriving Repr, DecidableEq

/-- The `publicKey.replace` call of `generateDKIMKeys` (`part_010` line 231,
`part_011` line 133): a global regex replace deleting every occurrence of
the BEGIN PUBLIC KEY wrapper line, the END PUBLIC KEY wrapper line, and
newline characters. -/
def stripPem (s : String) : String :=
  ((s.replace "-----BEGIN PUBLIC KEY-----" "").replace
      "-----END PUBLIC KEY-----" "").replace "\n" ""

/-- `generateDKIMTxtRecord` (`part_010` lines 241-243, `part_011` lines 139-141). -/
def generateDKIMTxtRecord (publicKey : String) : String :=
  "v=DKIM1; k=rsa; p=" ++ publicKey

/-- `SELECT * FROM domain_configs WHERE domain_name = ?` returning the first
row (`getDomainConfigByName`, `part_010` lines 264-275). -/
def findCfg (store : List DomainCfgRow) (domainName : String) : Option DomainCfgRow :=
  store.find? (fun r => r.domain_name = domainName)

/-- `createDomainConfig(domainName)` (`part_010` lines 282-342): inside a
transaction, select the existing row and return it if present; otherwise
generate DKIM keys, derive the selector from `Math.floor(Date.now() / 1000)`,
insert one row and return it.  `now` is `Date.now()` in milliseconds, `gen`
the key-pair generator output, `newId` the fresh `uuidv4()`.  Returns the
new table contents and the returned row. -/
def createDomainConfig (store : List DomainCfgRow) (domainName : String)
    (gen : KeyGen) (now : Nat) (newId : String) :
    List DomainCfgRow × DomainCfgRow :=
  match findCfg store domainName with
  | some existing => (store, existing)
  | none =>
      let pub := stripPem gen.rawPublicPem
      let dkimSelector := "mail" ++ toString (now / 1000)
      let serverIP := "127.0.0.1"
      let row : DomainCfgRow :=
        { id := newId
          domain_name := domainName
          active := false
          dkim_selector := dkimSelector
          dkim_public_key := pub
          dkim_private_key := gen.privateKey
          dkim_txt_record := generateDKIMTxtRecord pub
          spf_record := "v=spf1 ip4:" ++ serverIP ++ " -all"
          dkim_verified := false
          spf_verified := false
          mx_verified := false }
      (store ++ [row], row)

/-! `createDomainConfig` of the file-backed implementation
(`src/unnamed/part_005` lines 256-292).  It derives its selector from
`Date.now()` directly — milliseconds, not seconds. -/

structure FileDomainConfig where
  id : String
  domainName : String
  serverHostname : String
  serverIP : String
  dkimSelector : String
  dkimPrivateKey : String
  dkimPublicKey : String
  active : Bool
  deriving Repr, DecidableEq

/-- `part_005` lines 256-292 (the fields the claims are about; the derived
`dnsRecords` strings are not needed here).  `now` is `Date.now()` in
milliseconds. -/
def createDomainConfigFile (domainName serverHostname serverIP : String)
    (gen : KeyGen) (now : Nat) : FileDomainConfig :=
  { id := toString now
    domainName := domainName
    serverHostname := serverHostname
    serverIP := serverIP
    dkimSelector := "mail" ++ toString now
    dkimPrivateKey := gen.privateKey
    dkimPublicKey := gen.rawPublicPem
    active := true }

/-! ## Email accounts and stored messages

`emails` table rows (`src/models/email-model.js`) and `messages` table rows.
The MySQL `messages` table (`src/config/database.js` lines 195-208) has no
`status` column; the Sequelize `Message` model (`src/unnamed/part_009`
lines 74-77) has `status : ENUM('received','sent','failed','queued')` with
default `'received'`.  `status` is therefore an `Option String` here: rows
written through the MySQL model carry `none`, rows written through the
Sequelize model carry the value Sequelize would store. -/

structure EmailAcct where
  address : String
  name : Option String
  deriving Repr, DecidableEq

/-- `getEmailByAddress` (`src/models/email-model.js`):
`SELECT * FROM emails WHERE address = ?`, first row or null. -/
def getEmailByAddress (emails : List EmailAcct) (address : String) :
    Option EmailAcct :=
  emails.find? (fun e => e.address = address)

structure MsgRow where
  id : String
  message_id : Option String
  from_email : String
  to_email : String
  subject : Option String
  text_content : Option String
  html_content : Option String
  sent : Bool
  read : Bool
  status : Option String
  deriving Repr, DecidableEq

/-- `createMessage` (`src/models/message-model.js` lines 63-93): one INSERT
into `messages` of the given fields (the table has no `status` column). -/
def createMessage (row : MsgRow) (db : List MsgRow) : List MsgRow :=
  db ++ [row]

/-! ## Outbound send handler (`src/unnamed/part_004` lines 98-178)

`sendEmailHandler(req, res)`: after the required-field check it looks up
the sender mailbox, then the sender domain's configuration, then the
`active` flag, each failure producing its own HTTP response; only then does
it hand the mail to the transport (`sendEmail` of the email service) and,
only after the transport resolves, insert one `messages` row with
`sent: true` (and no `status` column). -/

/-- The distinct responses `sendEmailHandler` can produce.  Each constructor
carries nothing but what the source response carries beyond its literal
strings. -/
inductive SendOutcome where
  /-- 400 `{error: 'From, to, and subject are required'}` -/
  | missingFields
  /-- 404 `{error: 'Sender email not found'}` -/
  | unknownSender
  /-- 400 `{error: 'Domain not properly configured for sending emails', ...}` -/
  | domainNotConfigured
  /-- 400 `{error: 'Domain is not active for sending emails', ...}` -/
  | domainInactive
  /-- 200 `{message: 'Email sent successfully', id, messageId, deliveryInfo}` -/
  | success (id : String) (messageId : String) (deliveryInfo : String)
  /-- 500 `{error: 'Failed to send email', details}` (the catch-all) -/
  | sendFailure (details : String)
  deriving Repr, DecidableEq

/-- The HTTP status code and `error` string of each outcome, as literally
written in `part_004`. -/
def SendOutcome.httpStatus : SendOutcome → Nat
  | .missingFields => 400
  | .unknownSender => 404
  | .domainNotConfigured => 400
  | .domainInactive => 400
  | .success _ _ _ => 200
  | .sendFailure _ => 500

def SendOutcome.httpError : SendOutcome → Option String
  | .missingFields => some "From, to, and subject are required"
  | .unknownSender => some "Sender email not found"
  | .domainNotConfigured => some "Domain not properly configured for sending emails"
  | .domainInactive => some "Domain is not active for sending emails"
  | .success _ _ _ => none
  | .sendFailure _ => some "Failed to send email"

/-- The request body fields; a field is `none` when absent.  JS
`if (!from || !to || !subject)` treats both `undefined` and the empty
string as missing. -/
structure SendReq where
  fromAddr : Option String   -- `req.body.from` (`from` is reserved in Lean)
  toAddr : Option String     -- `req.body.to`
  subject : Option String
  text : Option String
  html : Option String
  deriving Repr, DecidableEq

def isFalsy : Option String → Bool
  | none => true
  | some s => s.isEmpty

/-- The `mailOptions` object handed to `sendEmail`. -/
structure MailOptions where
  fromName : String
  fromAddress : String
  toAddr : String
  subject : String
  text : Option String
  html : Option String
  messageIdHeader : String
  deriving Repr, DecidableEq

/-- The value `sendEmail` resolves to (`info.messageId`, `info.response`). -/
structure SendInfo where
  messageId : String
  response : String
  deriving Repr, DecidableEq

/-- JS `s.split('@')`: split the character list on `'@'` (for a
single-character separator, `List.splitOn` has exactly the JS semantics,
including `"" → [""]`). -/
def jsSplitAt (s : String) : List String :=
  (s.data.splitOn '@').map String.mk

/-- `from.split('@')[1]`: index 1 is `undefined` (here `none`) when the
address contains no `@`.  A `none` domain makes
`getDomainConfigByName(undefined)` find no row. -/
def fromDomainOf (addr : String) : Option String :=
  (jsSplitAt addr).get? 1

/-- `sendEmailHandler` (`part_004` lines 98-178).  `transport` is the
nodemailer `sendEmail` call: `Except.error e` when it rejects with message
`e`, `Except.ok info` when the MTA acknowledged.  `newMsgId` is the
`uuidv4()` drawn inside `createMessage`; `msgIdHeader` stands for the
generated `Message-ID` header value (timestamp + random suffix + domain).
Returns the response and the new `messages` table. -/
def sendEmailHandler (emails : List EmailAcct) (cfgs : List DomainCfgRow)
    (db : List MsgRow) (req : SendReq)
    (transport : MailOptions → Except String SendInfo)
    (newMsgId : String) (msgIdHeader : String) :
    SendOutcome × List MsgRow :=
  if isFalsy req.fromAddr || isFalsy req.toAddr || isFalsy req.subject then
    (.missingFields, db)
  else
    let sender := req.fromAddr.getD ""
    match getEmailByAddress emails sender with
    | none => (.unknownSender, db)
    | some senderAcct =>
      let fromDomain := fromDomainOf sender
      match fromDomain.bind (findCfg cfgs) with
      | none => (.domainNotConfigured, db)
      | some domainCfg =>
        if !domainCfg.active then
          (.domainInactive, db)
        else
          -- getTransporter(fromDomain) reconfigures the module-level
          -- transporter; it has no effect observable in this model.
          let mailOptions : MailOptions :=
            { fromName := senderAcct.name.getD ((jsSplitAt sender).headD "")
              fromAddress := sender
              toAddr := req.toAddr.getD ""
              subject := req.subject.getD ""
              text := req.text
              html := req.html
              messageIdHeader := msgIdHeader }
          match transport mailOptions with
          | .error e => (.sendFailure e, db)
          | .ok info =>
              let messageData : MsgRow :=
                { id := newMsgId
                  message_id := some info.messageId
                  from_email := sender
                  to_email := req.toAddr.getD ""
                  subject := req.subject
                  text_content := req.text
                  html_content := req.html
                  sent := true
                  read := false
                  status := none }
              (.success newMsgId info.messageId info.response,
               createMessage messageData db)

/-! ## Inbound SMTP receivers

`createSMTPServer` exists twice: `src/services/smtp-service.js` (MySQL) and
`src/unnamed/part_008` (Sequelize).  Both buffer the stream into `mailData`
and handle the `end` event; the `end` handler is the part the claims are
about.  `simpleParser` is modelled as an explicit `parse` argument
(`none` = the parser rejected the payload). -/

/-- What the handlers read off `simpleParser`'s result.  `toValue` /
`fromValue` model `parsedMail.to.value` / `parsedMail.from.value`; the
handlers index `[0]` into them, which throws (caught by the handler's
`catch`) when the list is empty. -/
structure ParsedMail where
  messageId : Option String
  toValue : List String
  fromValue : List String
  subject : Option String
  text : Option String
  html : Option String
  hasAttachments : Bool
  deriving Repr, DecidableEq

/-- Result of an `onData` end handler: `none` models
`callback(new Error('Error processing email'))` (session rejected), `some
db'` models `callback()` (session acknowledged) with `db'` the resulting
`messages` table. -/
abbrev SmtpResult := Option (List MsgRow)

/-- The `stream.on('end', ...)` handler of the MySQL
`createSMTPServer` (`src/services/smtp-service.js` lines 26-58): parse,
extract the first To address, look up the recipient (the result is unused —
the message is saved "whether recipient exists or not"), insert one row
with `sent: false` (the MySQL `messages` table has no `status` column), and
acknowledge.  Any thrown error (parse failure, missing To/From address,
insert failure) lands in the `catch` and rejects the session. -/
def smtpOnDataEnd (parse : String → Option ParsedMail)
    (emails : List EmailAcct) (newMsgId : String)
    (mailData : String) (db : List MsgRow) : SmtpResult :=
  match parse mailData with
  | none => none
  | some pm =>
    match pm.toValue.head?, pm.fromValue.head? with
    | some toA, some fromA =>
        -- const recipient = await emailModel.getEmailByAddress(to);
        -- (looked up, then never used)
        let _recipient := getEmailByAddress emails toA
        let messageData : MsgRow :=
          { id := newMsgId
            message_id := pm.messageId
            from_email := fromA
            to_email := toA
            subject := pm.subject
            text_content := pm.text
            html_content := pm.html
            sent := false
            read := false
            status := none }
        some (createMessage messageData db)
    | _, _ => none

/-- The `stream.on('end', ...)` handler of the Sequelize
`createSMTPServer` (`src/unnamed/part_008` lines 30-62).  After
`simpleParser` succeeds, line 34 runs
`console.log('Received chunk:', chunk.toString());` — but `chunk` is bound
only as the parameter of the `data`-event arrow function on line 26, so
this reference throws a `ReferenceError`, which the surrounding
`try/catch` turns into `callback(new Error('Error processing email'))`.
Control never reaches the `Message.create` call on line 55; the handler
can only reject. -/
def part008OnDataEnd (parse : String → Option ParsedMail)
    (mailData : String) (db : List MsgRow) : SmtpResult × List MsgRow :=
  match parse mailData with
  | none => (none, db)
  | some _ =>
      -- ReferenceError: chunk is not defined  → catch → callback(Error)
      (none, db)

/-- The `onData` handler of the fallback server built when loading the
configuration fails (`src/services/smtp-service.js` lines 64-74, identical
in `part_008` lines 68-77): it discards every data chunk and calls
`callback()` — success — on `end`, touching no table. -/
def smtpFallbackOnDataEnd (db : List MsgRow) : SmtpResult :=
  some db

/-! ## Verification-state partial update
(`updateDomainConfigVerification`, `src/unnamed/part_010` lines 350-393) -/

/-- The `verificationStatus` argument: a field is `none` when the caller
did not supply it (`=== undefined` in the source). -/
structure VerifUpdate where
  dkimVerified : Option Bool
  spfVerified : Option Bool
  mxVerified : Option Bool
  active : Option Bool
  deriving Repr, DecidableEq

/-- The effect of the generated `UPDATE domain_configs SET ...` on one row:
each supplied field is SET, every other column keeps its value. -/
def applyVerifUpdate (u : VerifUpdate) (r : DomainCfgRow) : DomainCfgRow :=
  { r with
    dkim_verified := u.dkimVerified.getD r.dkim_verified
    spf_verified := u.spfVerified.getD r.spf_verified
    mx_verified := u.mxVerified.getD r.mx_verified
    active := u.active.getD r.active }

/-- `updateDomainConfigVerification(domainName, verificationStatus)`
(`part_010` lines 350-393): collect the supplied fields; if none were
supplied, skip the UPDATE and return `getDomainConfigByName(domainName)`;
otherwise run `UPDATE ... WHERE domain_name = ?` (affecting every matching
row) and return `getDomainConfigByName(domainName)`.  Returns the new
table and the returned row. -/
def updateDomainConfigVerification (store : List DomainCfgRow)
    (domainName : String) (u : VerifUpdate) :
    List DomainCfgRow × Option DomainCfgRow :=
  if u.dkimVerified.isNone && u.spfVerified.isNone &&
      u.mxVerified.isNone && u.active.isNone then
    (store, findCfg store domainName)
  else
    let store' := store.map (fun r =>
      if r.domain_name = domainName then applyVerifUpdate u r else r)
    (store', findCfg store' domainName)

/-! ## DNS configuration checker
(`checkDNSConfiguration`, `src/config/email-config.js` lines 403-517)

Each `dns.promises` call is modelled as an `Except` value carried by a
`DnsOracle`: `Except.error code` when the resolver call rejects with
`err.code = code`, `Except.ok records` when it resolves.  `resolveTxt`
returns each TXT record as a list of character-string chunks which the
source joins with `record.join('')`. -/

structure MxRecord where
  priority : Nat
  exchange : String
  deriving Repr, DecidableEq

/-- The five resolver lookups the function performs.  `dkim sel` is
`dns.resolveTxt(sel ++ "._domainkey." ++ domain)` for one candidate
selector. -/
structure DnsOracle where
  mx : Except String (List MxRecord)
  txt : Except String (List (List String))
  dmarcTxt : Except String (List (List String))
  dkim : String → Except String (List (List String))
  ptr : Except String (List String)

/-- One entry of `results.checks`: the `status` string, the `records`
collected (already joined to plain strings where the source joins them),
and the `error` code field set on resolver failure. -/
structure DnsCheckOut (α : Type) where
  status : String
  records : List α
  error : Option String
  deriving Repr, DecidableEq

/-- The MX check (lines 417-424). -/
def mxCheck (o : Except String (List MxRecord)) : DnsCheckOut MxRecord :=
  match o with
  | .ok recs =>
      { status := if recs.length > 0 then "ok" else "missing"
        records := recs, error := none }
  | .error code => { status := "error", records := [], error := some code }

/-- The SPF check (lines 427-438): filter the TXT records whose joined text
starts with `v=spf1`. -/
def spfCheck (o : Except String (List (List String))) : DnsCheckOut String :=
  match o with
  | .ok txts =>
      let spfs := txts.filter (fun r => (String.join r).startsWith "v=spf1")
      { status := if spfs.length > 0 then "ok" else "missing"
        records := spfs.map String.join, error := none }
  | .error code => { status := "error", records := [], error := some code }

/-- The DMARC check (lines 441-456): like SPF over `_dmarc.<domain>` with
prefix `v=DMARC1`, except that a rejection with code `ENOTFOUND` is mapped
to status `missing` instead of `error`; note `records` keeps all TXT
records, not only the valid DMARC ones. -/
def dmarcCheck (o : Except String (List (List String))) : DnsCheckOut String :=
  match o with
  | .ok txts =>
      let valid := txts.filter (fun r => (String.join r).startsWith "v=DMARC1")
      { status := if valid.length > 0 then "ok" else "missing"
        records := txts.map String.join, error := none }
  | .error code =>
      if code = "ENOTFOUND" then
        { status := "missing", records := [], error := none }
      else
        { status := "error", records := [], error := some code }

/-- The selector candidates probed by the DKIM check (line 461). -/
def dkimSelectorCandidates : List String := ["mail", "default", "dkim", "selector1"]

/-- The DKIM check (lines 459-480): for each candidate selector, look up
the TXT record, appending the joined records and setting the found flag on
a non-empty answer; every per-selector rejection is swallowed by the inner
`catch` and the loop continues.  The outer `catch` that would set status
`error` can never fire, so the status is always `ok` or `missing` and the
`error` field is never set. -/
def dkimCheck (o : String → Except String (List (List String))) :
    DnsCheckOut String :=
  let scan := dkimSelectorCandidates.foldl
    (fun (acc : List String × Bool) sel =>
      match o sel with
      | .ok recs =>
          if recs.length > 0 then (acc.1 ++ recs.map String.join, true) else acc
      | .error _ => acc)
    ([], false)
  { status := if scan.2 then "ok" else "missing"
    records := scan.1, error := none }

/-- The PTR check (lines 483-491): `dns.reverse(serverIP)`. -/
def ptrCheck (o : Except String (List String)) : DnsCheckOut String :=
  match o with
  | .ok recs =>
      { status := if recs.length > 0 then "ok" else "missing"
        records := recs, error := none }
  | .error code => { status := "error", records := [], error := some code }

/-- `Math.round(x)` for non-negative `x = 100 * passed / total`:
`floor(x + 1/2) = (200 * passed + total) / (2 * total)` in `Nat`
division. -/
def jsRoundPct (passed total : Nat) : Nat :=
  (200 * passed + total) / (2 * total)

structure DnsResults where
  mx : DnsCheckOut MxRecord
  spf : DnsCheckOut String
  dkim : DnsCheckOut String
  dmarc : DnsCheckOut String
  ptr : DnsCheckOut String
  healthScore : Nat
  deriving Repr, DecidableEq

/-- `checkDNSConfiguration` (lines 403-517): run the five checks, then
over `Object.values(results.checks)` (insertion order mx, spf, dkim,
dmarc, ptr) count the checks whose status is not `'unchecked'` and those
whose status is `'ok'`, and set
`healthScore = totalChecks > 0 ? Math.round(passed/total*100) : 0`.
The outer `catch` (lines 509-516) is unreachable from this pure body. -/
def checkDNSConfiguration (o : DnsOracle) : DnsResults :=
  let mx := mxCheck o.mx
  let spf := spfCheck o.txt
  let dkim := dkimCheck o.dkim
  let dmarc := dmarcCheck o.dmarcTxt
  let ptr := ptrCheck o.ptr
  let statuses := [mx.status, spf.status, dkim.status, dmarc.status, ptr.status]
  let totalChecks := (statuses.filter (fun s => s ≠ "unchecked")).length
  let passedChecks := (statuses.filter (fun s => s = "ok")).length
  { mx := mx, spf := spf, dkim := dkim, dmarc := dmarc, ptr := ptr
    healthScore := if totalChecks > 0 then jsRoundPct passedChecks totalChecks else 0 }

/-! ## Email configuration deep merge
(`updateEmailConfig` / `deepMerge`, `src/models/email-config-model.js`
lines 35-89)

The stored configuration is a JSON value (`JSON.parse` of the
`config_value` column).  `JValue` models the JSON values involved;
`jobj` fields are in property-insertion order, duplicate-free as JS
objects are. -/

inductive JValue where
  | jnull
  | jbool (b : Bool)
  | jnum (n : Int)
  | jstr (s : String)
  | jarr (xs : List JValue)
  | jobj (fields : List (String × JValue))

namespace JValue

/-- `isObject(item)` (lines 87-89): truthy, `typeof === 'object'`, not an
array.  `null` is falsy, so it is not an object. -/
def isObject : JValue → Bool
  | jobj _ => true
  | _ => false

/-- The own enumerable properties `Object.assign({}, v)` copies from `v`:
an object's fields; an array's index properties; a string's index
properties (one single-character string each); nothing for the other
primitives and `null`. -/
def ownProps : JValue → List (String × JValue)
  | jobj fs => fs
  | jarr xs => xs.enum.map (fun p => (toString p.1, p.2))
  | jstr s => s.toList.enum.map (fun p => (toString p.1, jstr (String.mk [p.2])))
  | _ => []

/-- `key in target`. -/
def hasKey (fs : List (String × JValue)) (k : String) : Bool :=
  fs.any (fun p => p.1 = k)

/-- `target[key]` for a present key. -/
def getKey (fs : List (String × JValue)) (k : String) : Option JValue :=
  (fs.find? (fun p => p.1 = k)).map (fun p => p.2)

/-- `output[key] = v` on a JS object: overwrite in place when the key is
present (property order is kept), append otherwise. -/
def setKey (fs : List (String × JValue)) (k : String) (v : JValue) :
    List (String × JValue) :=
  if hasKey fs k then
    fs.map (fun p => if p.1 = k then (k, v) else p)
  else
    fs ++ [(k, v)]

end JValue

open JValue in
mutual

/-- `deepMerge(target, source)` (lines 62-80): start from
`Object.assign({}, target)`; when both arguments are plain objects, walk
`Object.keys(source)` in order: an object-valued source entry whose key is
absent from `target` is assigned wholesale, one whose key is present
recurses into `deepMerge(target[key], source[key])`, and a non-object
source value is assigned wholesale.  The function always returns the
`output` object — also when `target` is not an object (then the recursion
bottomed out in `Object.assign({}, primitive)`, an empty object). -/
def deepMerge (target source : JValue) : JValue :=
  match target, source with
  | jobj tfs, jobj sfs => jobj (deepMergeFold tfs tfs sfs)
  | t, _ => jobj (ownProps t)

/-- The `Object.keys(source).forEach` loop of `deepMerge`: `tfs` is the
original target's fields (the `key in target` / `target[key]` reads),
`out` the accumulating `output` object. -/
def deepMergeFold (tfs out : List (String × JValue)) :
    List (String × JValue) → List (String × JValue)
  | [] => out
  | (k, sv) :: rest =>
      let out' :=
        if isObject sv then
          if hasKey tfs k then
            setKey out k (deepMerge ((getKey tfs k).getD jnull) sv)
          else
            setKey out k sv
        else
          setKey out k sv
      deepMergeFold tfs out' rest

end

/-- `updateEmailConfig(newConfig)` (lines 35-54): read the current
configuration, `deepMerge` the update into it, write the merged value
back, and return it.  Result: (value persisted, value returned). -/
def updateEmailConfig (currentConfig newConfig : JValue) : JValue × JValue :=
  let mergedConfig := deepMerge currentConfig newConfig
  (mergedConfig, mergedConfig)

/-! ## Helper lemmas -/

theorem findCfg_append_self (store : List DomainCfgRow) (d : String)
    (r : DomainCfgRow) (h : findCfg store d = none) (hr : r.domain_name = d) :
    findCfg (store ++ [r]) d = some r := by
  unfold findCfg at *
  induction store with
  | nil => simp [List.find?, hr]
  | cons a l ih =>
      rw [List.cons_append]
      rw [List.find?_cons] at h ⊢
      cases hd : decide (a.domain_name = d) with
      | true => rw [hd] at h; exact absurd h (by simp)
      | false => rw [hd] at h; exact ih h

theorem createDomainConfig_of_found (store : List DomainCfgRow) (d : String)
    (gen : KeyGen) (now : Nat) (newId : String) (c : DomainCfgRow)
    (h : findCfg store d = some c) :
    createDomainConfig store d gen now newId = (store, c) := by
  simp [createDomainConfig, h]

/-! ## C2: idempotent domain-identity creation -/

/-- C2: `createForDomain`/`createDomainConfig` is idempotent.  If an
identity row already exists for the domain, any later call — whatever key
material `gen₂`, clock value `now₂` or fresh id `id₂` it would have used —
returns that existing row (hence the same `dkim_selector` and the same key
material) and leaves the table unchanged, so no key pair is consumed and
no duplicate row is inserted.  Stated both for a pre-existing row and for
the row created by a first call on a table that had none. -/
theorem createForDomain_idempotent (store : List DomainCfgRow) (d : String)
    (gen1 gen2 : KeyGen) (now1 now2 : Nat) (id1 id2 : String) :
    (∀ c, findCfg store d = some c →
        createDomainConfig store d gen2 now2 id2 = (store, c)) ∧
    (findCfg store d = none →
        createDomainConfig (createDomainConfig store d gen1 now1 id1).1 d
            gen2 now2 id2 =
          ((createDomainConfig store d gen1 now1 id1).1,
           (createDomainConfig store d gen1 now1 id1).2)) := by
  constructor
  · intro c h
    exact createDomainConfig_of_found store d gen2 now2 id2 c h
  · intro h
    have hfirst :
        createDomainConfig store d gen1 now1 id1 =
          (store ++ [(createDomainConfig store d gen1 now1 id1).2],
           (createDomainConfig store d gen1 now1 id1).2) := by
      simp [createDomainConfig, h]
    have hname : (createDomainConfig store d gen1 now1 id1).2.domain_name = d := by
      simp [createDomainConfig, h]
    have hfind :
        findCfg (createDomainConfig store d gen1 now1 id1).1 d =
          some (createDomainConfig store d gen1 now1 id1).2 := by
      rw [hfirst]
      exact findCfg_append_self store d _ h hname
    exact createDomainConfig_of_found _ d gen2 now2 id2 _ hfind

/-- Witness for C2 at a concrete input: an empty table, then two creation
calls for `example.com` with different key material and clocks. -/
theorem createForDomain_idempotent_witness :
    createDomainConfig
        (createDomainConfig [] "example.com" ⟨"PUB1", "PRIV1"⟩ 1700000000000 "id1").1
        "example.com" ⟨"PUB2", "PRIV2"⟩ 1700000099000 "id2" =
      ((createDomainConfig [] "example.com" ⟨"PUB1", "PRIV1"⟩ 1700000000000 "id1").1,
       (createDomainConfig [] "example.com" ⟨"PUB1", "PRIV1"⟩ 1700000000000 "id1").2) :=
  (createForDomain_idempotent [] "example.com" ⟨"PUB1", "PRIV1"⟩ ⟨"PUB2", "PRIV2"⟩
      1700000000000 1700000099000 "id1" "id2").2 rfl

/-! ## C6: shape of the derived DNS record strings -/

/-- C6: every identity row freshly created by `createDomainConfig` stores
`dkim_txt_record = "v=DKIM1; k=rsa; p=" ++ dkim_public_key` — the embedded
key is exactly the stored public key, which itself is the generated PEM
with the BEGIN/END wrapper and newlines stripped — and stores
`spf_record = "v=spf1 ip4:<serverIP> -all"` with the hard-coded server IP
`127.0.0.1` of `part_010` line 303. -/
theorem dkim_spf_record_shape (store : List DomainCfgRow) (d : String)
    (gen : KeyGen) (now : Nat) (newId : String)
    (h : findCfg store d = none) :
    ((createDomainConfig store d gen now newId).2.dkim_txt_record =
        "v=DKIM1; k=rsa; p=" ++
          (createDomainConfig store d gen now newId).2.dkim_public_key) ∧
    ((createDomainConfig store d gen now newId).2.dkim_public_key =
        stripPem gen.rawPublicPem) ∧
    ((createDomainConfig store d gen now newId).2.spf_record =
        "v=spf1 ip4:" ++ "127.0.0.1" ++ " -all") := by
  refine ⟨?_, ?_, ?_⟩ <;> simp [createDomainConfig, h, generateDKIMTxtRecord]

/-- Witness for C6 at a concrete input: a fresh creation over the empty
table with a wrapped PEM public key. -/
theorem dkim_spf_record_shape_witness :
    ((createDomainConfig [] "example.com"
          ⟨"-----BEGIN PUBLIC KEY-----\nMIIB\nAQAB\n-----END PUBLIC KEY-----\n", "PRIV"⟩
          1700000000000 "id1").2.dkim_txt_record =
        "v=DKIM1; k=rsa; p=" ++
          (createDomainConfig [] "example.com"
              ⟨"-----BEGIN PUBLIC KEY-----\nMIIB\nAQAB\n-----END PUBLIC KEY-----\n", "PRIV"⟩
              1700000000000 "id1").2.dkim_public_key) ∧
    ((createDomainConfig [] "example.com"
          ⟨"-----BEGIN PUBLIC KEY-----\nMIIB\nAQAB\n-----END PUBLIC KEY-----\n", "PRIV"⟩
          1700000000000 "id1").2.dkim_public_key =
        stripPem "-----BEGIN PUBLIC KEY-----\nMIIB\nAQAB\n-----END PUBLIC KEY-----\n") ∧
    ((createDomainConfig [] "example.com"
          ⟨"-----BEGIN PUBLIC KEY-----\nMIIB\nAQAB\n-----END PUBLIC KEY-----\n", "PRIV"⟩
          1700000000000 "id1").2.spf_record =
        "v=spf1 ip4:" ++ "127.0.0.1" ++ " -all") :=
  dkim_spf_record_shape [] "example.com"
    ⟨"-----BEGIN PUBLIC KEY-----\nMIIB\nAQAB\n-----END PUBLIC KEY-----\n", "PRIV"⟩
    1700000000000 "id1" rfl

/-! ## C8: selector derivation -/

/-- C8 counterexample: the file-backed `createDomainConfig`
(`src/unnamed/part_005` line 264) derives the selector from `Date.now()`
directly — milliseconds — so at `Date.now() = 1700000000500` it produces
`"mail1700000000500"`, not `"mail" ++ <unix seconds>` as the claim states
for every identity-creating implementation. -/
theorem selector_milliseconds_counterexample :
    (createDomainConfigFile "example.com" "host" "203.0.113.7" ⟨"PUB", "PRIV"⟩
        1700000000500).dkimSelector ≠
      "mail" ++ toString (1700000000500 / 1000) := by
  decide

/-- C8 amended: the two database-backed implementations
(`part_010` line 300, `part_011` line 104) derive the selector as
`"mail" + Math.floor(Date.now() / 1000)` — unix seconds — while the
file-backed implementation (`part_005` line 264) uses
`"mail" + Date.now()` — unix milliseconds. -/
theorem selector_derivation (store : List DomainCfgRow) (d : String)
    (gen : KeyGen) (now : Nat) (newId hostname serverIP : String)
    (h : findCfg store d = none) :
    ((createDomainConfig store d gen now newId).2.dkim_selector =
        "mail" ++ toString (now / 1000)) ∧
    ((createDomainConfigFile d hostname serverIP gen now).dkimSelector =
        "mail" ++ toString now) := by
  constructor
  · simp [createDomainConfig, h]
  · rfl

/-- Witness for the amended C8 at `Date.now() = 1700000000500`. -/
theorem selector_derivation_witness :
    ((createDomainConfig [] "example.com" ⟨"PUB", "PRIV"⟩ 1700000000500 "id1").2.dkim_selector =
        "mail" ++ toString (1700000000500 / 1000)) ∧
    ((createDomainConfigFile "example.com" "host" "203.0.113.7" ⟨"PUB", "PRIV"⟩
          1700000000500).dkimSelector =
        "mail" ++ toString 1700000000500) :=
  selector_derivation [] "example.com" ⟨"PUB", "PRIV"⟩ 1700000000500 "id1"
    "host" "203.0.113.7" rfl

/-! ## C3: the three outbound-send preconditions -/

/-- C3: `sendEmailHandler` checks its preconditions in order, each failure
producing its own distinct rejection, and in each rejection case the
`messages` table is untouched.  With the required fields present:
an unknown sender is rejected 404 "Sender email not found" no matter what
the domain-config table holds (so this check fires first); a known sender
whose domain has no configuration row is rejected 400 "Domain not properly
configured for sending emails"; a known sender whose domain row has
`active = false` is rejected 400 "Domain is not active for sending
emails".  The three rejections are pairwise distinct outcomes with
pairwise distinct error strings. -/
theorem send_preconditions (emails : List EmailAcct) (cfgs : List DomainCfgRow)
    (db : List MsgRow) (req : SendReq)
    (transport : MailOptions → Except String SendInfo)
    (newMsgId msgIdHeader : String)
    (hf : isFalsy req.fromAddr = false) (ht : isFalsy req.toAddr = false)
    (hs : isFalsy req.subject = false) :
    (getEmailByAddress emails (req.fromAddr.getD "") = none →
        sendEmailHandler emails cfgs db req transport newMsgId msgIdHeader =
          (.unknownSender, db)) ∧
    (∀ acct, getEmailByAddress emails (req.fromAddr.getD "") = some acct →
        (fromDomainOf (req.fromAddr.getD "")).bind (findCfg cfgs) = none →
        sendEmailHandler emails cfgs db req transport newMsgId msgIdHeader =
          (.domainNotConfigured, db)) ∧
    (∀ acct cfg, getEmailByAddress emails (req.fromAddr.getD "") = some acct →
        (fromDomainOf (req.fromAddr.getD "")).bind (findCfg cfgs) = some cfg →
        cfg.active = false →
        sendEmailHandler emails cfgs db req transport newMsgId msgIdHeader =
          (.domainInactive, db)) ∧
    ((SendOutcome.unknownSender ≠ SendOutcome.domainNotConfigured ∧
      SendOutcome.unknownSender ≠ SendOutcome.domainInactive ∧
      SendOutcome.domainNotConfigured ≠ SendOutcome.domainInactive) ∧
     (SendOutcome.unknownSender.httpError ≠ SendOutcome.domainNotConfigured.httpError ∧
      SendOutcome.unknownSender.httpError ≠ SendOutcome.domainInactive.httpError ∧
      SendOutcome.domainNotConfigured.httpError ≠ SendOutcome.domainInactive.httpError)) := by
  refine ⟨?_, ?_, ?_, by decide⟩
  · intro h
    simp [sendEmailHandler, hf, ht, hs, h]
  · intro acct hacct hcfg
    simp [sendEmailHandler, hf, ht, hs, hacct, hcfg]
  · intro acct cfg hacct hcfg hact
    simp [sendEmailHandler, hf, ht, hs, hacct, hcfg, hact]

/-- Witness for C3: each of the three rejections at a concrete input, the
`messages` table empty before and after. -/
theorem send_preconditions_witness :
    (sendEmailHandler [] [] []
        ⟨some "user@example.com", some "b@other.com", some "hi", none, none⟩
        (fun _ => Except.error "unused") "m1" "h1" =
      (.unknownSender, [])) ∧
    (sendEmailHandler [⟨"user@example.com", none⟩] [] []
        ⟨some "user@example.com", some "b@other.com", some "hi", none, none⟩
        (fun _ => Except.error "unused") "m1" "h1" =
      (.domainNotConfigured, [])) ∧
    (sendEmailHandler [⟨"user@example.com", none⟩]
        [{ id := "c1", domain_name := "example.com", active := false,
           dkim_selector := "mail1", dkim_public_key := "PUB",
           dkim_private_key := "PRIV", dkim_txt_record := "T",
           spf_record := "S", dkim_verified := false, spf_verified := false,
           mx_verified := false }] []
        ⟨some "user@example.com", some "b@other.com", some "hi", none, none⟩
        (fun _ => Except.error "unused") "m1" "h1" =
      (.domainInactive, [])) :=
  ⟨(send_preconditions [] [] []
        ⟨some "user@example.com", some "b@other.com", some "hi", none, none⟩
        (fun _ => Except.error "unused") "m1" "h1" rfl rfl rfl).1 rfl,
   (send_preconditions [⟨"user@example.com", none⟩] [] []
        ⟨some "user@example.com", some "b@other.com", some "hi", none, none⟩
        (fun _ => Except.error "unused") "m1" "h1" rfl rfl rfl).2.1
      ⟨"user@example.com", none⟩ rfl (by decide),
   (send_preconditions [⟨"user@example.com", none⟩]
        [{ id := "c1", domain_name := "example.com", active := false,
           dkim_selector := "mail1", dkim_public_key := "PUB",
           dkim_private_key := "PRIV", dkim_txt_record := "T",
           spf_record := "S", dkim_verified := false, spf_verified := false,
           mx_verified := false }] []
        ⟨some "user@example.com", some "b@other.com", some "hi", none, none⟩
        (fun _ => Except.error "unused") "m1" "h1" rfl rfl rfl).2.2.1
      ⟨"user@example.com", none⟩
      { id := "c1", domain_name := "example.com", active := false,
        dkim_selector := "mail1", dkim_public_key := "PUB",
        dkim_private_key := "PRIV", dkim_txt_record := "T",
        spf_record := "S", dkim_verified := false, spf_verified := false,
        mx_verified := false } rfl (by decide) rfl⟩

/-! ## C4: transport failure and the persisted send record -/

/-- C4 counterexample: a send whose transport acknowledges ("250 OK")
persists one row with `sent = true` but with no `status` of `"sent"` —
the MySQL `createMessage` INSERT writes no status column (the `messages`
table has none, `src/config/database.js` lines 195-208), and the Sequelize
model's default is `'received'` (`part_009` lines 74-77).  The claim's
"StoredMessage with sent=true and status='sent' is created [after] the
transport acknowledges" therefore fails on this concrete successful
send. -/
theorem sent_status_counterexample :
    ((sendEmailHandler [⟨"user@example.com", some "User"⟩]
          [{ id := "c1", domain_name := "example.com", active := true,
             dkim_selector := "mail1", dkim_public_key := "PUB",
             dkim_private_key := "PRIV", dkim_txt_record := "T",
             spf_record := "S", dkim_verified := true, spf_verified := true,
             mx_verified := true }] []
          ⟨some "user@example.com", some "b@other.com", some "hi", some "t", none⟩
          (fun _ => Except.ok ⟨"mid-1", "250 OK"⟩) "m1" "hdr").1 =
        SendOutcome.success "m1" "mid-1" "250 OK") ∧
    (∀ m ∈ (sendEmailHandler [⟨"user@example.com", some "User"⟩]
          [{ id := "c1", domain_name := "example.com", active := true,
             dkim_selector := "mail1", dkim_public_key := "PUB",
             dkim_private_key := "PRIV", dkim_txt_record := "T",
             spf_record := "S", dkim_verified := true, spf_verified := true,
             mx_verified := true }] []
          ⟨some "user@example.com", some "b@other.com", some "hi", some "t", none⟩
          (fun _ => Except.ok ⟨"mid-1", "250 OK"⟩) "m1" "hdr").2,
        ¬(m.sent = true ∧ m.status = some "sent")) := by
  decide

/-- C4 amended: when the three send preconditions pass, a transport that
rejects makes `sendEmailHandler` answer the 500 "Failed to send email"
response with the transport's message and leaves the `messages` table
unchanged (no StoredMessage is persisted for a send that never reached the
transport); a transport that acknowledges makes it persist exactly one row
with `sent = true` — created only after the acknowledgment — whose
`status` is not `"sent"` but absent (`none`): the MySQL `messages` table
has no status column, and the Sequelize model would default it to
`'received'`. -/
theorem transport_failure_no_message (emails : List EmailAcct)
    (cfgs : List DomainCfgRow) (db : List MsgRow) (req : SendReq)
    (newMsgId msgIdHeader : String) (acct : EmailAcct) (cfg : DomainCfgRow)
    (hf : isFalsy req.fromAddr = false) (ht : isFalsy req.toAddr = false)
    (hs : isFalsy req.subject = false)
    (hacct : getEmailByAddress emails (req.fromAddr.getD "") = some acct)
    (hcfg : (fromDomainOf (req.fromAddr.getD "")).bind (findCfg cfgs) = some cfg)
    (hact : cfg.active = true) :
    (∀ e : String,
        sendEmailHandler emails cfgs db req (fun _ => Except.error e)
            newMsgId msgIdHeader =
          (.sendFailure e, db)) ∧
    (∀ info : SendInfo,
        sendEmailHandler emails cfgs db req (fun _ => Except.ok info)
            newMsgId msgIdHeader =
          (.success newMsgId info.messageId info.response,
           db ++ [{ id := newMsgId
                    message_id := some info.messageId
                    from_email := req.fromAddr.getD ""
                    to_email := req.toAddr.getD ""
                    subject := req.subject
                    text_content := req.text
                    html_content := req.html
                    sent := true
                    read := false
                    status := none }])) := by
  constructor
  · intro e
    simp [sendEmailHandler, hf, ht, hs, hacct, hcfg, hact]
  · intro info
    simp [sendEmailHandler, hf, ht, hs, hacct, hcfg, hact, createMessage]

/-- Witness for the amended C4: one failing and one acknowledging
transport at a concrete input. -/
theorem transport_failure_no_message_witness :
    (sendEmailHandler [⟨"user@example.com", some "User"⟩]
        [{ id := "c1", domain_name := "example.com", active := true,
           dkim_selector := "mail1", dkim_public_key := "PUB",
           dkim_private_key := "PRIV", dkim_txt_record := "T",
           spf_record := "S", dkim_verified := true, spf_verified := true,
           mx_verified := true }] []
        ⟨some "user@example.com", some "b@other.com", some "hi", some "t", none⟩
        (fun _ => Except.error "connect ECONNREFUSED") "m1" "hdr" =
      (.sendFailure "connect ECONNREFUSED", [])) ∧
    (sendEmailHandler [⟨"user@example.com", some "User"⟩]
        [{ id := "c1", domain_name := "example.com", active := true,
           dkim_selector := "mail1", dkim_public_key := "PUB",
           dkim_private_key := "PRIV", dkim_txt_record := "T",
           spf_record := "S", dkim_verified := true, spf_verified := true,
           mx_verified := true }] []
        ⟨some "user@example.com", some "b@other.com", some "hi", some "t", none⟩
        (fun _ => Except.ok ⟨"mid-1", "250 OK"⟩) "m1" "hdr" =
      (.success "m1" "mid-1" "250 OK",
       [{ id := "m1", message_id := some "mid-1",
          from_email := "user@example.com", to_email := "b@other.com",
          subject := some "hi", text_content := some "t",
          html_content := none, sent := true, read := false,
          status := none }])) :=
  ⟨(transport_failure_no_message [⟨"user@example.com", some "User"⟩]
      [{ id := "c1", domain_name := "example.com", active := true,
         dkim_selector := "mail1", dkim_public_key := "PUB",
         dkim_private_key := "PRIV", dkim_txt_record := "T",
         spf_record := "S", dkim_verified := true, spf_verified := true,
         mx_verified := true }] []
      ⟨some "user@example.com", some "b@other.com", some "hi", some "t", none⟩
      "m1" "hdr" ⟨"user@example.com", some "User"⟩
      { id := "c1", domain_name := "example.com", active := true,
        dkim_selector := "mail1", dkim_public_key := "PUB",
        dkim_private_key := "PRIV", dkim_txt_record := "T",
        spf_record := "S", dkim_verified := true, spf_verified := true,
        mx_verified := true }
      rfl rfl rfl rfl (by decide) rfl).1 "connect ECONNREFUSED",
   (transport_failure_no_message [⟨"user@example.com", some "User"⟩]
      [{ id := "c1", domain_name := "example.com", active := true,
         dkim_selector := "mail1", dkim_public_key := "PUB",
         dkim_private_key := "PRIV", dkim_txt_record := "T",
         spf_record := "S", dkim_verified := true, spf_verified := true,
         mx_verified := true }] []
      ⟨some "user@example.com", some "b@other.com", some "hi", some "t", none⟩
      "m1" "hdr" ⟨"user@example.com", some "User"⟩
      { id := "c1", domain_name := "example.com", active := true,
        dkim_selector := "mail1", dkim_public_key := "PUB",
        dkim_private_key := "PRIV", dkim_txt_record := "T",
        spf_record := "S", dkim_verified := true, spf_verified := true,
        mx_verified := true }
      rfl rfl rfl rfl (by decide) rfl).2 ⟨"mid-1", "250 OK"⟩⟩

/-! ## C5: partial verification update -/

theorem findCfg_map_update (store : List DomainCfgRow) (d : String)
    (u : VerifUpdate) (c : DomainCfgRow) (h : findCfg store d = some c) :
    findCfg (store.map (fun r =>
        if r.domain_name = d then applyVerifUpdate u r else r)) d =
      some (applyVerifUpdate u c) := by
  induction store with
  | nil => simp [findCfg] at h
  | cons a l ih =>
      by_cases ha : a.domain_name = d
      · have hh : findCfg (a :: l) d = some a :=
          List.find?_cons_of_pos _ (by simp [ha])
        rw [hh] at h
        cases h
        unfold findCfg
        rw [List.map_cons, if_pos ha,
          List.find?_cons_of_pos _ (by simp [applyVerifUpdate, ha])]
      · unfold findCfg at h ⊢
        rw [List.find?_cons_of_neg _ (by simp [ha])] at h
        rw [List.map_cons, if_neg ha,
          List.find?_cons_of_neg _ (by simp [ha])]
        exact ih h

/-- C5: `updateDomainConfigVerification` is a partial update.  For a
domain with a stored row `c` and any combination of supplied fields, the
returned row is `c` with exactly the supplied booleans replaced: every
supplied field takes the supplied value, every unsupplied field keeps its
prior value, and the non-verification columns (id, name, selector, keys,
records) are untouched; when no field is supplied the stored row is
returned unchanged and the table is not written. -/
theorem updateVerification_frame (store : List DomainCfgRow) (d : String)
    (u : VerifUpdate) (c : DomainCfgRow) (h : findCfg store d = some c) :
    ((updateDomainConfigVerification store d u).2 =
        some (applyVerifUpdate u c)) ∧
    ((applyVerifUpdate u c).id = c.id ∧
     (applyVerifUpdate u c).domain_name = c.domain_name ∧
     (applyVerifUpdate u c).dkim_selector = c.dkim_selector ∧
     (applyVerifUpdate u c).dkim_public_key = c.dkim_public_key ∧
     (applyVerifUpdate u c).dkim_private_key = c.dkim_private_key ∧
     (applyVerifUpdate u c).dkim_txt_record = c.dkim_txt_record ∧
     (applyVerifUpdate u c).spf_record = c.spf_record) ∧
    ((u.dkimVerified = none → (applyVerifUpdate u c).dkim_verified = c.dkim_verified) ∧
     (∀ b, u.dkimVerified = some b → (applyVerifUpdate u c).dkim_verified = b)) ∧
    ((u.spfVerified = none → (applyVerifUpdate u c).spf_verified = c.spf_verified) ∧
     (∀ b, u.spfVerified = some b → (applyVerifUpdate u c).spf_verified = b)) ∧
    ((u.mxVerified = none → (applyVerifUpdate u c).mx_verified = c.mx_verified) ∧
     (∀ b, u.mxVerified = some b → (applyVerifUpdate u c).mx_verified = b)) ∧
    ((u.active = none → (applyVerifUpdate u c).active = c.active) ∧
     (∀ b, u.active = some b → (applyVerifUpdate u c).active = b)) ∧
    (u = ⟨none, none, none, none⟩ →
        updateDomainConfigVerification store d u = (store, some c)) := by
  refine ⟨?_, by simp [applyVerifUpdate], ?_, ?_, ?_, ?_, ?_⟩
  · unfold updateDomainConfigVerification
    by_cases hnone : u.dkimVerified.isNone && u.spfVerified.isNone &&
        u.mxVerified.isNone && u.active.isNone
    · rw [if_pos hnone]
      simp only [Bool.and_eq_true, Option.isNone_iff_eq_none] at hnone
      obtain ⟨⟨⟨h1, h2⟩, h3⟩, h4⟩ := hnone
      simp [h, applyVerifUpdate, h1, h2, h3, h4]
    · rw [if_neg hnone]
      exact findCfg_map_update store d u c h
  · exact ⟨fun hn => by simp [applyVerifUpdate, hn],
      fun b hb => by simp [applyVerifUpdate, hb]⟩
  · exact ⟨fun hn => by simp [applyVerifUpdate, hn],
      fun b hb => by simp [applyVerifUpdate, hb]⟩
  · exact ⟨fun hn => by simp [applyVerifUpdate, hn],
      fun b hb => by simp [applyVerifUpdate, hb]⟩
  · exact ⟨fun hn => by simp [applyVerifUpdate, hn],
      fun b hb => by simp [applyVerifUpdate, hb]⟩
  · intro hu
    subst hu
    simp [updateDomainConfigVerification, h, applyVerifUpdate]

/-- Witness for C5: updating only `dkimVerified` and `active` of a
concrete stored row. -/
theorem updateVerification_frame_witness :
    (updateDomainConfigVerification
        [{ id := "c1", domain_name := "example.com", active := false,
           dkim_selector := "mail1", dkim_public_key := "PUB",
           dkim_private_key := "PRIV", dkim_txt_record := "T",
           spf_record := "S", dkim_verified := false, spf_verified := true,
           mx_verified := false }]
        "example.com" ⟨some true, none, none, some true⟩).2 =
      some (applyVerifUpdate ⟨some true, none, none, some true⟩
        { id := "c1", domain_name := "example.com", active := false,
          dkim_selector := "mail1", dkim_public_key := "PUB",
          dkim_private_key := "PRIV", dkim_txt_record := "T",
          spf_record := "S", dkim_verified := false, spf_verified := true,
          mx_verified := false }) :=
  (updateVerification_frame
      [{ id := "c1", domain_name := "example.com", active := false,
         dkim_selector := "mail1", dkim_public_key := "PUB",
         dkim_private_key := "PRIV", dkim_txt_record := "T",
         spf_record := "S", dkim_verified := false, spf_verified := true,
         mx_verified := false }]
      "example.com" ⟨some true, none, none, some true⟩
      { id := "c1", domain_name := "example.com", active := false,
        dkim_selector := "mail1", dkim_public_key := "PUB",
        dkim_private_key := "PRIV", dkim_txt_record := "T",
        spf_record := "S", dkim_verified := false, spf_verified := true,
        mx_verified := false } (by decide)).1

/-! ## C1: inbound persistence -/

/-- C1: the Sequelize inbound receiver (`part_008`) never persists
anything.  For every payload — well-formed or not — its `end` handler
rejects the session (`callback(new Error(...))`) and leaves the `messages`
table unchanged: after a successful parse, line 34 dereferences `chunk`,
which is not in scope in the `end` handler, so a `ReferenceError` is
thrown before `Message.create` and caught by the handler's `catch`.  This
contradicts the claim that a well-formed under-limit session persists
exactly one StoredMessage.  (The MySQL twin `smtp-service.js` does
persist; see `inbound_store_regardless` below.) -/
theorem part008_never_persists (parse : String → Option ParsedMail)
    (mailData : String) (db : List MsgRow) :
    part008OnDataEnd parse mailData db = (none, db) := by
  unfold part008OnDataEnd
  cases parse mailData <;> rfl

/-- Supplementary (not itself a claim): the MySQL receiver's `end` handler
does behave as C1 describes — one row appended with `sent = false`
whenever the parse yields a To and a From address, and the persisted
result is the same whether or not the recipient address has a mailbox row
(the `getEmailByAddress` lookup result is dropped). -/
theorem inbound_store_regardless (parse : String → Option ParsedMail)
    (emails emails' : List EmailAcct) (newMsgId : String)
    (mailData : String) (db : List MsgRow) (pm : ParsedMail)
    (hp : parse mailData = some pm) (toA fromA : String)
    (hto : pm.toValue.head? = some toA) (hfrom : pm.fromValue.head? = some fromA) :
    smtpOnDataEnd parse emails newMsgId mailData db =
      some (db ++ [{ id := newMsgId
                     message_id := pm.messageId
                     from_email := fromA
                     to_email := toA
                     subject := pm.subject
                     text_content := pm.text
                     html_content := pm.html
                     sent := false
                     read := false
                     status := none }]) ∧
    smtpOnDataEnd parse emails newMsgId mailData db =
      smtpOnDataEnd parse emails' newMsgId mailData db := by
  constructor
  · simp [smtpOnDataEnd, hp, hto, hfrom, createMessage]
  · simp [smtpOnDataEnd, hp, hto, hfrom]

/-- Witness for `inbound_store_regardless`: a concrete parsed mail for a
recipient with no mailbox row, persisted all the same. -/
theorem inbound_store_regardless_witness :
    smtpOnDataEnd
        (fun _ => some ⟨some "<mid@a.com>", ["ghost@example.com"],
          ["alice@a.com"], some "hi", some "body", none, false⟩)
        [] "m1" "raw" [] =
      some [{ id := "m1"
              message_id := some "<mid@a.com>"
              from_email := "alice@a.com"
              to_email := "ghost@example.com"
              subject := some "hi"
              text_content := some "body"
              html_content := none
              sent := false
              read := false
              status := none }] :=
  (inbound_store_regardless
      (fun _ => some ⟨some "<mid@a.com>", ["ghost@example.com"],
        ["alice@a.com"], some "hi", some "body", none, false⟩)
      [] [⟨"ghost@example.com", none⟩] "m1" "raw" []
      ⟨some "<mid@a.com>", ["ghost@example.com"], ["alice@a.com"],
        some "hi", some "body", none, false⟩
      rfl "ghost@example.com" "alice@a.com" rfl rfl).1

/-! ## C9: never silently drop -/

/-- C9 counterexample: the fallback server installed when the
configuration load fails (`smtp-service.js` lines 64-74) acknowledges the
session (`callback()`, a success) while persisting nothing — here with an
empty `messages` table before and after — so the data callback does
report success for a session whose message was not persisted. -/
theorem silent_drop_counterexample :
    smtpFallbackOnDataEnd [] = some [] ∧ ([] : List MsgRow) = [] :=
  ⟨rfl, rfl⟩

/-- C9 amended: for the database-configured receiver the claim holds — a
parse failure rejects the session back to the peer, and an acknowledged
session always has exactly one newly persisted row (`sent = false`); but
the fallback receiver used when the configuration cannot be loaded
acknowledges every session without persisting anything (a silent drop). -/
theorem inbound_no_silent_drop (parse : String → Option ParsedMail)
    (emails : List EmailAcct) (newMsgId mailData : String)
    (db : List MsgRow) :
    (parse mailData = none →
        smtpOnDataEnd parse emails newMsgId mailData db = none) ∧
    (∀ db', smtpOnDataEnd parse emails newMsgId mailData db = some db' →
        ∃ m, db' = db ++ [m] ∧ m.sent = false) ∧
    (smtpFallbackOnDataEnd db = some db) := by
  refine ⟨fun hp => by simp [smtpOnDataEnd, hp], ?_, rfl⟩
  intro db' h
  simp only [smtpOnDataEnd] at h
  cases hp : parse mailData with
  | none => simp [hp] at h
  | some pm =>
      simp only [hp] at h
      cases hto : pm.toValue.head? with
      | none => simp [hto] at h
      | some toA =>
          cases hfrom : pm.fromValue.head? with
          | none => simp [hto, hfrom] at h
          | some fromA =>
              simp only [hto, hfrom, createMessage, Option.some.injEq] at h
              exact ⟨_, h.symm, rfl⟩

/-- Witness for the amended C9: a rejected unparsable session, an
acknowledged parsed session with its one persisted row, and the fallback
acknowledgment. -/
theorem inbound_no_silent_drop_witness :
    (smtpOnDataEnd (fun _ => none) [] "m1" "garbage" [] = none) ∧
    (∃ m : MsgRow,
        ([{ id := "m1", message_id := some "<mid@a.com>",
            from_email := "alice@a.com", to_email := "bob@b.com",
            subject := some "hi", text_content := some "body",
            html_content := none, sent := false, read := false,
            status := none }] : List MsgRow) = [] ++ [m] ∧ m.sent = false) ∧
    (smtpFallbackOnDataEnd ([] : List MsgRow) = some []) :=
  ⟨(inbound_no_silent_drop (fun _ => none) [] "m1" "garbage" []).1 rfl,
   (inbound_no_silent_drop
      (fun _ => some ⟨some "<mid@a.com>", ["bob@b.com"], ["alice@a.com"],
        some "hi", some "body", none, false⟩)
      [] "m1" "raw" []).2.1
      [{ id := "m1", message_id := some "<mid@a.com>",
         from_email := "alice@a.com", to_email := "bob@b.com",
         subject := some "hi", text_content := some "body",
         html_content := none, sent := false, read := false,
         status := (none : Option String) }] (by decide),
   (inbound_no_silent_drop (fun _ => none) [] "m1" "x" []).2.2⟩

/-! ## C7: independence and scoring of the DNS checks -/

/-- C7 counterexample: with every resolver lookup rejecting (code
`ETIMEOUT` throughout, so in particular all four DKIM selector lookups
fail), the dkim check is recorded as `"missing"` with no error code — not
as `"error"` with the code, as the claim states for a failing check.  (The
per-selector `catch` swallows the rejection and the loop just leaves
`dkimFound` false.) -/
theorem dkim_error_swallowed_counterexample :
    ((checkDNSConfiguration
        { mx := Except.error "ETIMEOUT", txt := Except.error "ETIMEOUT",
          dmarcTxt := Except.error "ETIMEOUT",
          dkim := fun _ => Except.error "ETIMEOUT",
          ptr := Except.error "ETIMEOUT" }).dkim.status = "missing") ∧
    ((checkDNSConfiguration
        { mx := Except.error "ETIMEOUT", txt := Except.error "ETIMEOUT",
          dmarcTxt := Except.error "ETIMEOUT",
          dkim := fun _ => Except.error "ETIMEOUT",
          ptr := Except.error "ETIMEOUT" }).dkim.error = none) ∧
    ("missing" : String) ≠ "error" := by
  refine ⟨rfl, rfl, by decide⟩

/-- C7 amended: the five checks are independent — each check of the
result depends only on its own resolver lookup — and no failure aborts
the others; a failing mx, spf or ptr lookup is recorded as status
`"error"` with the error code on that check alone; a failing dmarc lookup
is recorded as `"error"` with the code unless the code is `ENOTFOUND`,
which is recorded as `"missing"`; a dkim lookup failure is swallowed per
selector, so when all selector lookups fail the dkim check reads
`"missing"` with no error code rather than `"error"`; and `healthScore`
is `round(100 × passed / attempted)` over the attempted (non-`unchecked`)
checks of the result, with zero attempted checks scoring 0. -/
theorem dns_checks_independent_scored (o : DnsOracle) :
    ((∀ o' : DnsOracle, o'.mx = o.mx →
        (checkDNSConfiguration o').mx = (checkDNSConfiguration o).mx) ∧
     (∀ o' : DnsOracle, o'.txt = o.txt →
        (checkDNSConfiguration o').spf = (checkDNSConfiguration o).spf) ∧
     (∀ o' : DnsOracle, o'.dkim = o.dkim →
        (checkDNSConfiguration o').dkim = (checkDNSConfiguration o).dkim) ∧
     (∀ o' : DnsOracle, o'.dmarcTxt = o.dmarcTxt →
        (checkDNSConfiguration o').dmarc = (checkDNSConfiguration o).dmarc) ∧
     (∀ o' : DnsOracle, o'.ptr = o.ptr →
        (checkDNSConfiguration o').ptr = (checkDNSConfiguration o).ptr)) ∧
    ((∀ code, o.mx = Except.error code →
        (checkDNSConfiguration o).mx.status = "error" ∧
        (checkDNSConfiguration o).mx.error = some code) ∧
     (∀ code, o.txt = Except.error code →
        (checkDNSConfiguration o).spf.status = "error" ∧
        (checkDNSConfiguration o).spf.error = some code) ∧
     (∀ code, o.ptr = Except.error code →
        (checkDNSConfiguration o).ptr.status = "error" ∧
        (checkDNSConfiguration o).ptr.error = some code) ∧
     (∀ code, o.dmarcTxt = Except.error code → code ≠ "ENOTFOUND" →
        (checkDNSConfiguration o).dmarc.status = "error" ∧
        (checkDNSConfiguration o).dmarc.error = some code) ∧
     (o.dmarcTxt = Except.error "ENOTFOUND" →
        (checkDNSConfiguration o).dmarc.status = "missing" ∧
        (checkDNSConfiguration o).dmarc.error = none) ∧
     ((∀ sel, ∃ code, o.dkim sel = Except.error code) →
        (checkDNSConfiguration o).dkim.status = "missing" ∧
        (checkDNSConfiguration o).dkim.status ≠ "error" ∧
        (checkDNSConfiguration o).dkim.error = none)) ∧
    ((checkDNSConfiguration o).healthScore =
      (fun sts =>
        if (sts.filter (fun s => s ≠ "unchecked")).length > 0 then
          jsRoundPct (sts.filter (fun s => s = "ok")).length
            (sts.filter (fun s => s ≠ "unchecked")).length
        else 0)
      [(checkDNSConfiguration o).mx.status, (checkDNSConfiguration o).spf.status,
       (checkDNSConfiguration o).dkim.status, (checkDNSConfiguration o).dmarc.status,
       (checkDNSConfiguration o).ptr.status]) := by
  refine ⟨⟨?_, ?_, ?_, ?_, ?_⟩, ⟨?_, ?_, ?_, ?_, ?_, ?_⟩, rfl⟩
  · intro o' h; simp [checkDNSConfiguration, h]
  · intro o' h; simp [checkDNSConfiguration, h]
  · intro o' h; simp [checkDNSConfiguration, h]
  · intro o' h; simp [checkDNSConfiguration, h]
  · intro o' h; simp [checkDNSConfiguration, h]
  · intro code h; exact ⟨by simp [checkDNSConfiguration, mxCheck, h],
      by simp [checkDNSConfiguration, mxCheck, h]⟩
  · intro code h; exact ⟨by simp [checkDNSConfiguration, spfCheck, h],
      by simp [checkDNSConfiguration, spfCheck, h]⟩
  · intro code h; exact ⟨by simp [checkDNSConfiguration, ptrCheck, h],
      by simp [checkDNSConfiguration, ptrCheck, h]⟩
  · intro code h hne
    refine ⟨?_, ?_⟩ <;> simp [checkDNSConfiguration, dmarcCheck, h, hne]
  · intro h
    exact ⟨by simp [checkDNSConfiguration, dmarcCheck, h],
      by simp [checkDNSConfiguration, dmarcCheck, h]⟩
  · intro h
    obtain ⟨c1, hc1⟩ := h "mail"
    obtain ⟨c2, hc2⟩ := h "default"
    obtain ⟨c3, hc3⟩ := h "dkim"
    obtain ⟨c4, hc4⟩ := h "selector1"
    have hscan : (checkDNSConfiguration o).dkim =
        { status := "missing", records := [], error := none } := by
      simp [checkDNSConfiguration, dkimCheck, dkimSelectorCandidates,
        hc1, hc2, hc3, hc4]
    rw [hscan]
    exact ⟨rfl, by simp, rfl⟩

/-- Witness for the amended C7 at a concrete oracle: mx resolves to one
record, everything else times out. -/
theorem dns_checks_independent_scored_witness :
    ((checkDNSConfiguration
        { mx := Except.ok [⟨10, "mail.example.com"⟩],
          txt := Except.error "ETIMEOUT", dmarcTxt := Except.error "ENOTFOUND",
          dkim := fun _ => Except.error "ETIMEOUT",
          ptr := Except.error "ETIMEOUT" }).spf.status = "error" ∧
     (checkDNSConfiguration
        { mx := Except.ok [⟨10, "mail.example.com"⟩],
          txt := Except.error "ETIMEOUT", dmarcTxt := Except.error "ENOTFOUND",
          dkim := fun _ => Except.error "ETIMEOUT",
          ptr := Except.error "ETIMEOUT" }).spf.error = some "ETIMEOUT") ∧
    ((checkDNSConfiguration
        { mx := Except.ok [⟨10, "mail.example.com"⟩],
          txt := Except.error "ETIMEOUT", dmarcTxt := Except.error "ENOTFOUND",
          dkim := fun _ => Except.error "ETIMEOUT",
          ptr := Except.error "ETIMEOUT" }).dmarc.status = "missing" ∧
     (checkDNSConfiguration
        { mx := Except.ok [⟨10, "mail.example.com"⟩],
          txt := Except.error "ETIMEOUT", dmarcTxt := Except.error "ENOTFOUND",
          dkim := fun _ => Except.error "ETIMEOUT",
          ptr := Except.error "ETIMEOUT" }).dmarc.error = none) ∧
    ((checkDNSConfiguration
        { mx := Except.ok [⟨10, "mail.example.com"⟩],
          txt := Except.error "ETIMEOUT", dmarcTxt := Except.error "ENOTFOUND",
          dkim := fun _ => Except.error "ETIMEOUT",
          ptr := Except.error "ETIMEOUT" }).healthScore =
      jsRoundPct 1 5) :=
  ⟨(dns_checks_independent_scored
      { mx := Except.ok [⟨10, "mail.example.com"⟩],
        txt := Except.error "ETIMEOUT", dmarcTxt := Except.error "ENOTFOUND",
        dkim := fun _ => Except.error "ETIMEOUT",
        ptr := Except.error "ETIMEOUT" }).2.1.2.1 "ETIMEOUT" rfl,
   (dns_checks_independent_scored
      { mx := Except.ok [⟨10, "mail.example.com"⟩],
        txt := Except.error "ETIMEOUT", dmarcTxt := Except.error "ENOTFOUND",
        dkim := fun _ => Except.error "ETIMEOUT",
        ptr := Except.error "ETIMEOUT" }).2.1.2.2.2.2.1 rfl,
   by rw [(dns_checks_independent_scored
      { mx := Except.ok [⟨10, "mail.example.com"⟩],
        txt := Except.error "ETIMEOUT", dmarcTxt := Except.error "ENOTFOUND",
        dkim := fun _ => Except.error "ETIMEOUT",
        ptr := Except.error "ETIMEOUT" }).2.2]; rfl⟩

/-! ## C10: deep-merge semantics -/

open JValue

theorem getKey_eq_none (fs : List (String × JValue)) (k : String)
    (h : hasKey fs k = false) : getKey fs k = none := by
  induction fs with
  | nil => rfl
  | cons p rest ih =>
      simp only [hasKey, List.any_cons, Bool.or_eq_false_iff] at h
      unfold getKey
      rw [List.find?_cons_of_neg _ (by simpa using h.1)]
      exact ih h.2

theorem getKey_overwrite (fs : List (String × JValue)) (k : String) (v : JValue)
    (h : hasKey fs k = true) :
    getKey (fs.map (fun p => if p.1 = k then (k, v) else p)) k = some v := by
  induction fs with
  | nil => simp [hasKey] at h
  | cons p rest ih =>
      rw [List.map_cons]
      by_cases hp : p.1 = k
      · rw [if_pos hp]
        unfold getKey
        rw [List.find?_cons_of_pos _ (by simp)]
        rfl
      · rw [if_neg hp]
        unfold getKey
        rw [List.find?_cons_of_neg _ (by simpa using hp)]
        have hr : hasKey rest k = true := by
          simp only [hasKey, List.any_cons, Bool.or_eq_true] at h
          rcases h with h | h
          · exact absurd (by simpa using h) hp
          · exact h
        exact ih hr

theorem getKey_append_last (fs : List (String × JValue)) (k : String) (v : JValue)
    (h : hasKey fs k = false) :
    getKey (fs ++ [(k, v)]) k = some v := by
  induction fs with
  | nil =>
      unfold getKey
      rw [List.nil_append, List.find?_cons_of_pos _ (by simp)]
      rfl
  | cons p rest ih =>
      simp only [hasKey, List.any_cons, Bool.or_eq_false_iff] at h
      rw [List.cons_append]
      unfold getKey
      rw [List.find?_cons_of_neg _ (by simpa using h.1)]
      exact ih h.2

theorem getKey_setKey_self (fs : List (String × JValue)) (k : String) (v : JValue) :
    getKey (setKey fs k v) k = some v := by
  unfold setKey
  by_cases h : hasKey fs k = true
  · rw [if_pos h]
    exact getKey_overwrite fs k v h
  · rw [if_neg (by simpa using h)]
    exact getKey_append_last fs k v (by simpa using h)

theorem getKey_map_overwrite_ne (fs : List (String × JValue)) (k kw : String)
    (v : JValue) (h : kw ≠ k) :
    getKey (fs.map (fun p => if p.1 = kw then (kw, v) else p)) k = getKey fs k := by
  induction fs with
  | nil => rfl
  | cons p rest ih =>
      rw [List.map_cons]
      by_cases hp : p.1 = kw
      · rw [if_pos hp]
        unfold getKey
        rw [List.find?_cons_of_neg _ (by simp [h]),
            List.find?_cons_of_neg _ (by simp [hp, h])]
        exact ih
      · by_cases hk : p.1 = k
        · rw [if_neg hp]
          unfold getKey
          rw [List.find?_cons_of_pos _ (by simpa using hk),
              List.find?_cons_of_pos _ (by simpa using hk)]
        · rw [if_neg hp]
          unfold getKey
          rw [List.find?_cons_of_neg _ (by simpa using hk),
              List.find?_cons_of_neg _ (by simpa using hk)]
          exact ih

theorem getKey_append_ne (fs : List (String × JValue)) (k kw : String)
    (v : JValue) (h : kw ≠ k) :
    getKey (fs ++ [(kw, v)]) k = getKey fs k := by
  induction fs with
  | nil =>
      unfold getKey
      rw [List.nil_append, List.find?_cons_of_neg _ (by simp [h]),
        List.find?_nil]
  | cons p rest ih =>
      rw [List.cons_append]
      by_cases hk : p.1 = k
      · unfold getKey
        rw [List.find?_cons_of_pos _ (by simpa using hk),
            List.find?_cons_of_pos _ (by simpa using hk)]
      · unfold getKey
        rw [List.find?_cons_of_neg _ (by simpa using hk),
            List.find?_cons_of_neg _ (by simpa using hk)]
        exact ih

theorem getKey_setKey_ne (fs : List (String × JValue)) (k kw : String)
    (v : JValue) (h : kw ≠ k) :
    getKey (setKey fs kw v) k = getKey fs k := by
  unfold setKey
  by_cases hh : hasKey fs kw = true
  · rw [if_pos hh]
    exact getKey_map_overwrite_ne fs k kw v h
  · rw [if_neg (by simpa using hh)]
    exact getKey_append_ne fs k kw v h

theorem hasKey_false_of_not_mem (fs : List (String × JValue)) (k : String)
    (h : k ∉ fs.map Prod.fst) : hasKey fs k = false := by
  induction fs with
  | nil => rfl
  | cons p rest ih =>
      simp only [List.map_cons, List.mem_cons, not_or] at h
      simp only [hasKey, List.any_cons, Bool.or_eq_false_iff]
      exact ⟨decide_eq_false (fun hpk => h.1 hpk.symm), ih h.2⟩

theorem hasKey_of_getKey_some (fs : List (String × JValue)) (k : String)
    (v : JValue) (h : getKey fs k = some v) : hasKey fs k = true := by
  induction fs with
  | nil => simp [getKey] at h
  | cons p rest ih =>
      by_cases hp : p.1 = k
      · simp [hasKey, hp]
      · unfold getKey at h
        rw [List.find?_cons_of_neg _ (by simpa using hp)] at h
        simp only [hasKey, List.any_cons, Bool.or_eq_true]
        exact Or.inr (ih h)

/-- The loop body of `deepMerge`, with the three assignment branches
written as one `setKey` of the branch value. -/
theorem deepMergeFold_cons (tfs out : List (String × JValue)) (pk : String)
    (pv : JValue) (rest : List (String × JValue)) :
    deepMergeFold tfs out ((pk, pv) :: rest) =
      deepMergeFold tfs
        (setKey out pk
          (if isObject pv then
             if hasKey tfs pk then deepMerge ((getKey tfs pk).getD jnull) pv
             else pv
           else pv)) rest := by
  by_cases h1 : isObject pv
  · by_cases h2 : hasKey tfs pk <;> simp [deepMergeFold, h1, h2]
  · simp [deepMergeFold, h1]

theorem deepMergeFold_getKey_not_mem (tfs : List (String × JValue)) (k : String) :
    ∀ (sfs out : List (String × JValue)), hasKey sfs k = false →
      getKey (deepMergeFold tfs out sfs) k = getKey out k := by
  intro sfs
  induction sfs with
  | nil => intro out _; rfl
  | cons p rest ih =>
      intro out h
      obtain ⟨pk, pv⟩ := p
      simp only [hasKey, List.any_cons, Bool.or_eq_false_iff] at h
      rw [deepMergeFold_cons, ih _ h.2,
        getKey_setKey_ne _ _ _ _ (by simpa using h.1)]

theorem deepMergeFold_getKey_mem (tfs : List (String × JValue)) (k : String)
    (sv : JValue) :
    ∀ (sfs out : List (String × JValue)),
      (sfs.map Prod.fst).Nodup → getKey sfs k = some sv →
      getKey (deepMergeFold tfs out sfs) k =
        some (if isObject sv then
                if hasKey tfs k then deepMerge ((getKey tfs k).getD jnull) sv
                else sv
              else sv) := by
  intro sfs
  induction sfs with
  | nil => intro out _ h; simp [getKey] at h
  | cons p rest ih =>
      intro out hnd h
      obtain ⟨pk, pv⟩ := p
      rw [deepMergeFold_cons]
      by_cases hk : pk = k
      · subst hk
        have hpv : pv = sv := by
          unfold getKey at h
          rw [List.find?_cons_of_pos _ (by simp)] at h
          simpa using h
        subst hpv
        have hnotin : hasKey rest pk = false := by
          rw [List.map_cons] at hnd
          exact hasKey_false_of_not_mem _ _ (List.nodup_cons.mp hnd).1
        rw [deepMergeFold_getKey_not_mem _ _ _ _ hnotin, getKey_setKey_self]
      · have h' : getKey rest k = some sv := by
          unfold getKey at h
          rw [List.find?_cons_of_neg _ (by simpa using hk)] at h
          exact h
        have hnd' : (rest.map Prod.fst).Nodup := by
          rw [List.map_cons] at hnd
          exact (List.nodup_cons.mp hnd).2
        rw [ih _ hnd' h']

/-- C10 counterexample: with stored configuration `{a: 1}` and update
`{a: {y: 2}}`, `updateEmailConfig` persists and returns `{a: {}}` — the
recursion hits `deepMerge(1, {y: 2})`, whose `Object.assign({}, 1)` is the
empty object and whose loop is skipped since `1` is not an object — so the
supplied nested value `y = 2` neither replaces the stored value nor is
merged into the result: the persisted configuration has no key `y` under
`a` at all, contradicting the claimed merge semantics. -/
theorem deep_merge_counterexample :
    (updateEmailConfig (jobj [("a", jnum 1)])
        (jobj [("a", jobj [("y", jnum 2)])]) =
      (jobj [("a", jobj [])], jobj [("a", jobj [])])) ∧
    ¬(∃ inner, getKey [("a", (jobj [] : JValue))] "a" = some (jobj inner) ∧
        getKey inner "y" = some (jnum 2)) := by
  refine ⟨rfl, ?_⟩
  rintro ⟨inner, h1, h2⟩
  simp only [getKey, List.find?, decide_True, Option.map_some,
    Option.map_some', Option.some.injEq, jobj.injEq] at h1
  rw [← h1] at h2
  simp [getKey] at h2

/-- C10 amended: `updateEmailConfig` persists and returns the
`deepMerge` of the stored and supplied configurations, and for plain
objects with (JS-object-like) duplicate-free update keys `deepMerge`
behaves as the claim states except in one case: a key absent from the
update keeps its stored value; a non-object supplied value replaces the
stored value wholesale; an object supplied under a key absent from the
stored object is taken wholesale; an object supplied under a present key
recurses — which is the key-by-key merge when the stored value is also a
plain object, but when it is not, the result at that key is the object
copy of the stored value's own enumerable properties (empty for a
primitive) and the supplied object's content is discarded. -/
theorem update_config_deep_merge (tfs sfs : List (String × JValue))
    (hnd : (sfs.map Prod.fst).Nodup) :
    (deepMerge (jobj tfs) (jobj sfs) = jobj (deepMergeFold tfs tfs sfs)) ∧
    (∀ k, hasKey sfs k = false →
        getKey (deepMergeFold tfs tfs sfs) k = getKey tfs k) ∧
    (∀ k sv, getKey sfs k = some sv → isObject sv = false →
        getKey (deepMergeFold tfs tfs sfs) k = some sv) ∧
    (∀ k sv, getKey sfs k = some sv → isObject sv = true →
        hasKey tfs k = false →
        getKey (deepMergeFold tfs tfs sfs) k = some sv) ∧
    (∀ k sv tv, getKey sfs k = some sv → isObject sv = true →
        getKey tfs k = some tv →
        getKey (deepMergeFold tfs tfs sfs) k = some (deepMerge tv sv)) ∧
    (∀ tv sv : JValue, isObject tv = false →
        deepMerge tv sv = jobj (ownProps tv)) ∧
    (∀ cur upd : JValue,
        updateEmailConfig cur upd = (deepMerge cur upd, deepMerge cur upd)) := by
  refine ⟨rfl, ?_, ?_, ?_, ?_, ?_, fun cur upd => rfl⟩
  · intro k h
    exact deepMergeFold_getKey_not_mem tfs k sfs tfs h
  · intro k sv h hobj
    rw [deepMergeFold_getKey_mem tfs k sv sfs tfs hnd h, hobj]
    simp
  · intro k sv h hobj hkey
    rw [deepMergeFold_getKey_mem tfs k sv sfs tfs hnd h, hobj, hkey]
    simp
  · intro k sv tv h hobj htv
    rw [deepMergeFold_getKey_mem tfs k sv sfs tfs hnd h, hobj,
      hasKey_of_getKey_some tfs k tv htv, htv]
    simp
  · intro tv sv h
    cases tv with
    | jobj fs => simp [isObject] at h
    | jnull => cases sv <;> rfl
    | jbool b => cases sv <;> rfl
    | jnum n => cases sv <;> rfl
    | jstr s => cases sv <;> rfl
    | jarr xs => cases sv <;> rfl

/-- Witness for the amended C10 on a concrete configuration: updating
`{host: "localhost", port: 2525}` with `{port: 25}` keeps `host` and
replaces `port`. -/
theorem update_config_deep_merge_witness :
    (getKey (deepMergeFold [("host", jstr "localhost"), ("port", jnum 2525)]
        [("host", jstr "localhost"), ("port", jnum 2525)]
        [("port", jnum 25)]) "host" =
      getKey [("host", jstr "localhost"), ("port", jnum 2525)] "host") ∧
    (getKey (deepMergeFold [("host", jstr "localhost"), ("port", jnum 2525)]
        [("host", jstr "localhost"), ("port", jnum 2525)]
        [("port", jnum 25)]) "port" = some (jnum 25)) :=
  ⟨(update_config_deep_merge
      [("host", jstr "localhost"), ("port", jnum 2525)]
      [("port", jnum 25)] (by simp)).2.1 "host" (by rfl),
   (update_config_deep_merge
      [("host", jstr "localhost"), ("port", jnum 2525)]
      [("port", jnum 25)] (by simp)).2.2.1 "port" (jnum 25) (by rfl) (by rfl)⟩

end EmailServer
